import Mathlib

/-!
# Verification of the fact-checking pipeline (`src/app.py`)

Shallow embedding of the orchestration logic of the fact-checking app:
claim extraction (`extract_claims`), web search (`search_web_for_claim`),
claim verification (`verify_claim`) and the orchestration loop plus
summary statistics in `main`.

Python values decoded from JSON are modelled by the inductive type `Json`
(numbers as integers; no claim depends on non-integral numerics).
Python exceptions are modelled with `Except`: a `.error` that escapes a
function models an uncaught exception.  External calls (the language-model
oracle and the search client) are modelled by outcome parameters supplied
to the embedded functions: one outcome value stands for the single call a
function makes.
-/

set_option autoImplicit false

namespace FactCheck

/-- A Python value decoded from JSON (`json.loads` output): `None`, booleans,
numbers (modelled as integers), strings, lists and dicts. -/
inductive Json where
  | null : Json
  | bool : Bool → Json
  | num : Int → Json
  | str : String → Json
  | arr : List Json → Json
  | obj : List (String × Json) → Json

/-- First binding of `key` in a dict's entry list (dicts decoded from JSON
have unique keys, so first-match equals Python dict lookup). -/
def lookupField : List (String × Json) → String → Option Json
  | [], _ => none
  | (k, v) :: rest, key => if k = key then some v else lookupField rest key

/-- Python `d.get(key, default)`: returns the value or the default on a dict,
raises `AttributeError` on any non-dict value. -/
def pyGet (d : Json) (key : String) (default : Json) : Except String Json :=
  match d with
  | Json.obj fields => Except.ok ((lookupField fields key).getD default)
  | _ => Except.error "AttributeError: object has no attribute get"

/-- Python `v[:n]`: prefix of a string or list; raises `TypeError` on anything
else (None, numbers, booleans, dicts are not sliceable). -/
def pySlice (v : Json) (n : Nat) : Except String Json :=
  match v with
  | Json.str s => Except.ok (Json.str (String.mk (s.toList.take n)))
  | Json.arr xs => Except.ok (Json.arr (xs.take n))
  | _ => Except.error "TypeError: object is not subscriptable"

/-- Python truthiness of a decoded value: `None`, `False`, `0`, `""`, `[]`
and the empty dict are falsy. -/
def jsonTruthy : Json → Bool
  | Json.null => false
  | Json.bool b => b
  | Json.num n => n ≠ 0
  | Json.str s => ¬ s.isEmpty
  | Json.arr xs => ¬ xs.isEmpty
  | Json.obj fields => ¬ fields.isEmpty

mutual
/-- Python `repr` of a decoded value, as used when a value is interpolated
into an f-string inside a container. -/
def pyRepr : Json → String
  | Json.null => "None"
  | Json.bool true => "True"
  | Json.bool false => "False"
  | Json.num n => toString n
  | Json.str s => "\x27" ++ s ++ "\x27"
  | Json.arr xs => "[" ++ String.intercalate ", " (pyReprList xs) ++ "]"
  | Json.obj fields => "\x7b" ++ String.intercalate ", " (pyReprFields fields) ++ "\x7d"

/-- `repr` of each element of a list. -/
def pyReprList : List Json → List String
  | [] => []
  | x :: xs => pyRepr x :: pyReprList xs

/-- `repr` of each `key: value` entry of a dict. -/
def pyReprFields : List (String × Json) → List String
  | [] => []
  | (k, v) :: rest => ("\x27" ++ k ++ "\x27" ++ ": " ++ pyRepr v) :: pyReprFields rest
end

/-- Python `str()` / f-string rendering of a decoded value: strings render
as themselves, everything else as its `repr`. -/
def pyStr : Json → String
  | Json.str s => s
  | v => pyRepr v

/-- Outcome of one language-model oracle call followed by `json.loads`:
the call raised (`exnFailure`), the response did not parse
(`parseFailure`, Python `json.JSONDecodeError`), or it parsed to a value. -/
inductive OracleOutcome where
  | exnFailure : String → OracleOutcome
  | parseFailure : String → OracleOutcome
  | parsed : Json → OracleOutcome

/-! ## Claim Extractor (`extract_claims`, app.py lines 47-115) -/

/-- `max_text_length = 8000` (app.py line 51). -/
def max_text_length : Nat := 8000

/-- `text_to_analyze` (app.py lines 52-56): the input text, truncated to the
first `max_text_length` characters when longer. -/
def text_to_analyze (text : String) : String :=
  if text.length > max_text_length then String.mk (text.toList.take max_text_length)
  else text

/-- Whether the truncation notice `st.info(...)` is issued
(app.py lines 52-54): exactly when the text exceeds the cap. -/
def truncation_notice (text : String) : Bool :=
  text.length > max_text_length

/-- Shape normalisation of the parsed extraction response plus the two
`except` fallbacks (app.py lines 98-115): a dict with a `"claims"` key
yields that value, a bare list yields itself, anything else yields `[]`;
then `claims if isinstance(claims, list) else []`; both exception handlers
return `[]`. -/
def extract_claims_result (outcome : OracleOutcome) : List Json :=
  match outcome with
  | OracleOutcome.exnFailure _ => []
  | OracleOutcome.parseFailure _ => []
  | OracleOutcome.parsed result =>
    let claims : Json :=
      match result with
      | Json.obj fields =>
        match lookupField fields "claims" with
        | some v => v
        | none => Json.arr []
      | Json.arr xs => Json.arr xs
      | _ => Json.arr []
    match claims with
    | Json.arr xs => xs
    | _ => []

/-- `extract_claims` (app.py lines 47-115): truncates the text, sends the
truncated text to the extraction oracle (the oracle is modelled as a
function of the text actually embedded into the prompt), and normalises
the response shape. -/
def extract_claims (text : String) (oracle : String → OracleOutcome) : List Json :=
  extract_claims_result (oracle (text_to_analyze text))

/-- Modelled from the spec (§4.1, §8): the extractor's normalisation as the
spec states it — `{"claims": [...]}` and bare `[...]` pass through, any
other shape (including a non-list `"claims"` field) yields the empty
sequence.  Used to compare the code's behaviour with the spec's words. -/
def extract_claims_spec (result : Json) : List Json :=
  match result with
  | Json.obj fields =>
    match lookupField fields "claims" with
    | some (Json.arr xs) => xs
    | _ => []
  | Json.arr xs => xs
  | _ => []

/-! ## Evidence Retriever (`search_web_for_claim`, app.py lines 117-136) -/

/-- The parameters of one `tavily_client.search(...)` call
(app.py lines 124-128). -/
structure SearchRequest where
  query : String
  search_depth : String
  max_results : Nat

/-- Outcome of one search-client call: the call raised, or returned a
decoded response value. -/
inductive SearchOutcome where
  | failure : String → SearchOutcome
  | success : Json → SearchOutcome

/-- The dict returned by `search_web_for_claim`
(`{"results": ..., "query": ...}`, app.py lines 130-136).  `results` keeps
whatever value `response.get("results", [])` produced (a list in practice,
but the code does not check); `query` is the value placed in the dict —
the formatted query string on success, the original `claim` argument in
the `except` branch. -/
structure SearchResults where
  results : Json
  query : Json

/-- The single search request `search_web_for_claim` issues
(app.py lines 121-128): query `f"{claim}"`, `search_depth="advanced"`,
`max_results=5`. -/
def search_request (claim : Json) : SearchRequest :=
  { query := pyStr claim, search_depth := "advanced", max_results := 5 }

/-- `search_web_for_claim` (app.py lines 117-136).  The search client is
modelled as a function of the request issued; the one application of
`search` below is the one call the code makes.  Any exception inside the
`try` — from the call itself, or an `AttributeError` from
`response.get` when the response is not a dict — is caught and converted
to `{"results": [], "query": claim}`. -/
def search_web_for_claim (claim : Json) (search : SearchRequest → SearchOutcome) :
    SearchResults :=
  match search (search_request claim) with
  | SearchOutcome.failure _ => { results := Json.arr [], query := claim }
  | SearchOutcome.success response =>
    match pyGet response "results" (Json.arr []) with
    | Except.ok rs => { results := rs, query := Json.str (pyStr claim) }
    | Except.error _ => { results := Json.arr [], query := claim }

/-! ## Claim Verifier (`verify_claim`, app.py lines 138-221) -/

/-- The dict returned by `verify_claim` (app.py lines 190-198, 202-210,
213-221).  All fields hold decoded values; `sources` is always a Python
list, so it is typed as a Lean list. -/
structure VerificationResult where
  claim : Json
  type : Json
  status : Json
  explanation : Json
  correct_info : Json
  confidence : Json
  sources : List Json

/-- A Python exception inside `verify_claim`'s `try`, split by which
`except` clause catches it: `json.JSONDecodeError` versus any other
exception. -/
inductive PyError where
  | jsonDecode : String → PyError
  | other : String → PyError

/-- Re-tag an exception not raised by `json.loads` (caught by the generic
`except Exception` clause). -/
def liftOther {α : Type} : Except String α → Except PyError α
  | Except.ok a => Except.ok a
  | Except.error msg => Except.error (PyError.other msg)

/-- One block of the evidence context (app.py lines 147-151):
`result.get('title', 'N/A')`, `result.get('content', 'N/A')[:500]`,
`result.get('url', 'N/A')`, interpolated into an f-string.  Raises if
`result` is not a dict or its content value is not sliceable. -/
def snippet_block (i : Nat) (r : Json) : Except String String := do
  let title ← pyGet r "title" (Json.str "N/A")
  let content0 ← pyGet r "content" (Json.str "N/A")
  let content ← pySlice content0 500
  let url ← pyGet r "url" (Json.str "N/A")
  Except.ok ("\nSource " ++ toString i ++ ":\nTitle: " ++ pyStr title ++
    "\nContent: " ++ pyStr content ++ "\nURL: " ++ pyStr url ++ "\n")

/-- The `for i, result in enumerate(search_results["results"][:3], 1)` loop
(app.py line 147), concatenating the blocks. -/
def context_loop : Nat → List Json → Except String String
  | _, [] => Except.ok ""
  | i, r :: rest => do
    let block ← snippet_block i r
    let restCtx ← context_loop (i + 1) rest
    Except.ok (block ++ restCtx)

/-- `search_context` construction (app.py lines 145-151): empty unless
`search_results.get("results")` is truthy; then the first three entries of
`search_results["results"][:3]` are formatted.  Iterating a sliced string
yields characters, whose `.get` raises `AttributeError`; slicing a
non-subscriptable value raises `TypeError`. -/
def build_search_context (sr : SearchResults) : Except String String :=
  if jsonTruthy sr.results then
    match pySlice sr.results 3 with
    | Except.error e => Except.error e
    | Except.ok (Json.arr xs) => context_loop 1 xs
    | Except.ok (Json.str s) =>
      if s.isEmpty then Except.ok ""
      else Except.error "AttributeError: str object has no attribute get"
    | Except.ok _ => Except.error "TypeError: object is not iterable"
  else Except.ok ""

/-- The list comprehension
`[r.get("url", "") for r in ... if r.get("url")]` (app.py line 197):
for each entry the filter `r.get("url")` (default `None`) is evaluated
for truthiness, then the element `r.get("url", "")` is kept. -/
def sources_comp : List Json → Except String (List Json)
  | [] => Except.ok []
  | r :: rest => do
    let cond ← pyGet r "url" Json.null
    if jsonTruthy cond then do
      let u ← pyGet r "url" (Json.str "")
      let us ← sources_comp rest
      Except.ok (u :: us)
    else
      sources_comp rest

/-- The `sources` list (app.py line 197):
`[r.get("url", "") for r in search_results.get("results", [])[:3] if r.get("url")]`. -/
def sources_list (sr : SearchResults) : Except String (List Json) := do
  let rs3 ← pySlice sr.results 3
  match rs3 with
  | Json.arr xs => sources_comp xs
  | Json.str s =>
    if s.isEmpty then Except.ok []
    else Except.error "AttributeError: str object has no attribute get"
  | _ => Except.error "TypeError: object is not iterable"

/-- The `try` block of `verify_claim` (app.py lines 140-198), in source
order: read `claim_text` and `claim_type`, build the search context, make
the oracle call and parse it (the supplied `outcome`), then build the
result dict (each `verification.get` raises if the parsed verdict is not
a dict).  An escaping `PyError` is what the `except` clauses observe. -/
def verify_claim_try (claim : Json) (search_results : SearchResults)
    (outcome : OracleOutcome) : Except PyError VerificationResult := do
  let claim_text ← liftOther (pyGet claim "claim" (Json.str ""))
  let claim_type ← liftOther (pyGet claim "type" (Json.str "other"))
  let _search_context ← liftOther (build_search_context search_results)
  let verification ← match outcome with
    | OracleOutcome.exnFailure msg => Except.error (PyError.other msg)
    | OracleOutcome.parseFailure msg => Except.error (PyError.jsonDecode msg)
    | OracleOutcome.parsed v => Except.ok v
  let status ← liftOther (pyGet verification "status" (Json.str "UNKNOWN"))
  let explanation ← liftOther (pyGet verification "explanation" (Json.str ""))
  let correct_info ← liftOther (pyGet verification "correct_info" Json.null)
  let confidence ← liftOther (pyGet verification "confidence" (Json.str "MEDIUM"))
  let sources ← liftOther (sources_list search_results)
  Except.ok
    { claim := claim_text, type := claim_type, status := status,
      explanation := explanation, correct_info := correct_info,
      confidence := confidence, sources := sources }

/-- The body shared by the two `except` handlers of `verify_claim`
(app.py lines 200-221; they differ only in the explanation string).  The
handler first evaluates `claim.get('claim', '')[:50]` inside the
`st.warning` f-string (which itself raises when `claim` is not a dict or
its text is not sliceable — such an exception escapes the handler), then
returns the ERROR dict. -/
def handler_result (claim : Json) (expl : String) : Except String VerificationResult := do
  let warned ← pyGet claim "claim" (Json.str "")
  let _ ← pySlice warned 50
  let claimv ← pyGet claim "claim" (Json.str "")
  let typev ← pyGet claim "type" (Json.str "other")
  Except.ok
    { claim := claimv, type := typev, status := Json.str "ERROR",
      explanation := Json.str expl, correct_info := Json.null,
      confidence := Json.str "LOW", sources := [] }

/-- `verify_claim` (app.py lines 138-221): the `try` block, with the
`json.JSONDecodeError` handler (lines 200-210) and the generic
`except Exception` handler (lines 211-221).  An escaping `Except.error`
models an uncaught exception. -/
def verify_claim (claim : Json) (search_results : SearchResults)
    (outcome : OracleOutcome) : Except String VerificationResult :=
  match verify_claim_try claim search_results outcome with
  | Except.ok r => Except.ok r
  | Except.error (PyError.jsonDecode msg) =>
    handler_result claim ("Error parsing verification response: " ++ msg)
  | Except.error (PyError.other msg) =>
    handler_result claim ("Error during verification: " ++ msg)

/-! ## Verification Orchestrator (`main`, app.py lines 269-352) -/

/-- The verification loop of `main` (app.py lines 301-317): for each claim
in order, `claim.get("claim", "")` and `claim.get("type", "other")` are
read (raising out of the loop if a claim is not a dict), the web search
runs, `verify_claim` runs, and its result is appended.  The search client
and the verifier oracle are modelled per loop index. -/
def verification_loop (so : Nat → SearchRequest → SearchOutcome)
    (vo : Nat → OracleOutcome) :
    Nat → List Json → Except String (List VerificationResult)
  | _, [] => Except.ok []
  | idx, claim :: rest => do
    let claim_text ← pyGet claim "claim" (Json.str "")
    let _claim_type ← pyGet claim "type" (Json.str "other")
    let search_results := search_web_for_claim claim_text (so idx)
    let verification ← verify_claim claim search_results (vo idx)
    let others ← verification_loop so vo (idx + 1) rest
    Except.ok (verification :: others)

/-- Where the pipeline stops after PDF text extraction
(app.py lines 274-288). -/
inductive PipelineStage where
  | halted_empty_text : PipelineStage
  | halted_no_claims : PipelineStage
  | claims_extracted : List Json → PipelineStage

/-- The pipeline from extracted text to extracted claims
(app.py lines 274-288): `if not pdf_text: st.stop()` halts on empty text
before `extract_claims` runs (the extraction oracle, a function of the
text sent to it, is consulted only past that guard); `if not claims:
st.stop()` halts on an empty claim list. -/
def pipeline_after_text (pdf_text : String) (oracle : String → OracleOutcome) :
    PipelineStage :=
  if pdf_text.isEmpty then PipelineStage.halted_empty_text
  else
    let claims := extract_claims pdf_text oracle
    if claims.isEmpty then PipelineStage.halted_no_claims
    else PipelineStage.claims_extracted claims

/-- Whether a result's status value equals the string `s`, as Python's
`==` on the dict value compares it (app.py lines 336-339, 345-351): only
a string status can equal a string key. -/
def is_status (s : String) (r : VerificationResult) : Bool :=
  match r.status with
  | Json.str t => t = s
  | _ => false

/-- `status_counts.get(s, 0)` after the counting loop
(app.py lines 336-339): the number of results whose status is `s`. -/
def status_count (results : List VerificationResult) (s : String) : Nat :=
  results.countP (is_status s)

/-- The displayed percentage for the VERIFIED row:
`verified/len(results)*100` (app.py line 346), modelled exactly in `ℚ`
(the UI's `.1f` rounding is display only). -/
def verified_pct (results : List VerificationResult) : ℚ :=
  (status_count results "VERIFIED" : ℚ) / (results.length : ℚ) * 100

/-- The displayed percentage for the INACCURATE row:
`inaccurate/len(results)*100` (app.py line 349). -/
def inaccurate_pct (results : List VerificationResult) : ℚ :=
  (status_count results "INACCURATE" : ℚ) / (results.length : ℚ) * 100

/-- The displayed percentage for the FALSE row:
`false_claims/len(results)*100` (app.py line 352). -/
def false_pct (results : List VerificationResult) : ℚ :=
  (status_count results "FALSE" : ℚ) / (results.length : ℚ) * 100

/-! ## Helper predicates used by the theorems -/

/-- A claim value shaped as the data model's Claim record demands for the
fields the code touches: a dict whose `"claim"` value, when present, is a
string (so the `except` handlers' `[:50]` slice cannot raise). -/
def properClaim : Json → Bool
  | Json.obj fields =>
    match lookupField fields "claim" with
    | none => true
    | some (Json.str _) => true
    | some _ => false
  | _ => false

/-- The claim text the code reads: `claim.get("claim", "")` on a dict. -/
def claimTextOf (fields : List (String × Json)) : Json :=
  (lookupField fields "claim").getD (Json.str "")

/-- The claim kind the code reads: `claim.get("type", "other")` on a dict. -/
def claimTypeOf (fields : List (String × Json)) : Json :=
  (lookupField fields "type").getD (Json.str "other")

/-- The first three evidence snippets of a retriever output — the pool
both the prompt context and the sources list draw from. -/
def jsonTake3 : Json → List Json
  | Json.arr xs => xs.take 3
  | _ => []

/-- Whether the oracle outcome is a failed call or an unparsable
response. -/
def oracleFailed : OracleOutcome → Bool
  | OracleOutcome.exnFailure _ => true
  | OracleOutcome.parseFailure _ => true
  | OracleOutcome.parsed _ => false

/-- The ERROR dict an `except` handler of `verify_claim` returns for a
dict-shaped claim (app.py lines 202-210 and 213-221). -/
def handler_record (fields : List (String × Json)) (expl : String) : VerificationResult :=
  { claim := claimTextOf fields, type := claimTypeOf fields,
    status := Json.str "ERROR", explanation := Json.str expl,
    correct_info := Json.null, confidence := Json.str "LOW", sources := [] }

/-- `claim.get("claim", "")` on a dict-shaped claim value, as the loop in
`main` reads it (app.py line 310). -/
def dictClaimText : Json → Json
  | Json.obj fields => claimTextOf fields
  | _ => Json.str ""

/-- A concrete ERROR result, as `verify_claim` produces when a
verification call fails. -/
def sampleError : VerificationResult :=
  ⟨Json.str "c", Json.str "other", Json.str "ERROR", Json.str "e", Json.null,
    Json.str "LOW", []⟩

/-- A concrete VERIFIED result. -/
def sampleVerified : VerificationResult :=
  ⟨Json.str "c", Json.str "other", Json.str "VERIFIED", Json.str "", Json.null,
    Json.str "HIGH", []⟩

/-! ## Supporting lemmas -/

@[simp]
lemma bind_ok {ε α β : Type} (a : α) (f : α → Except ε β) :
    (Except.ok a >>= f) = f a := rfl

@[simp]
lemma bind_error {ε α β : Type} (e : ε) (f : α → Except ε β) :
    ((Except.error e : Except ε α) >>= f) = Except.error e := rfl

@[simp]
lemma liftOther_ok {α : Type} (a : α) :
    liftOther (Except.ok a) = Except.ok a := rfl

@[simp]
lemma liftOther_error {α : Type} (e : String) :
    liftOther (Except.error e : Except String α) = Except.error (PyError.other e) := rfl

@[simp]
lemma pyGet_obj (fields : List (String × Json)) (key : String) (d : Json) :
    pyGet (Json.obj fields) key d = Except.ok ((lookupField fields key).getD d) := rfl

lemma properClaim_spec (c : Json) (h : properClaim c = true) :
    ∃ fields s, c = Json.obj fields ∧ claimTextOf fields = Json.str s := by
  cases c with
  | obj fields =>
    cases hl : lookupField fields "claim" with
    | none => exact ⟨fields, "", rfl, by simp [claimTextOf, hl]⟩
    | some v =>
      cases v with
      | str s => exact ⟨fields, s, rfl, by simp [claimTextOf, hl]⟩
      | null => simp [properClaim, hl] at h
      | bool b => simp [properClaim, hl] at h
      | num n => simp [properClaim, hl] at h
      | arr xs => simp [properClaim, hl] at h
      | obj fs => simp [properClaim, hl] at h
  | null => simp [properClaim] at h
  | bool b => simp [properClaim] at h
  | num n => simp [properClaim] at h
  | str s => simp [properClaim] at h
  | arr xs => simp [properClaim] at h

lemma verify_claim_try_err (fields : List (String × Json)) (sr : SearchResults)
    (o : OracleOutcome) (hf : oracleFailed o = true) :
    ∃ pe, verify_claim_try (Json.obj fields) sr o = Except.error pe := by
  unfold verify_claim_try
  cases hb : build_search_context sr with
  | error e => exact ⟨PyError.other e, by simp [hb]⟩
  | ok ctx =>
    cases o with
    | exnFailure m => exact ⟨PyError.other m, by simp [hb]⟩
    | parseFailure m => exact ⟨PyError.jsonDecode m, by simp [hb]⟩
    | parsed v => simp [oracleFailed] at hf

lemma verify_claim_try_ok_spec (c : Json) (sr : SearchResults) (o : OracleOutcome)
    (r : VerificationResult) (h : verify_claim_try c sr o = Except.ok r) :
    ∃ fields vfields, c = Json.obj fields ∧
      o = OracleOutcome.parsed (Json.obj vfields) ∧
      r.claim = claimTextOf fields ∧ r.type = claimTypeOf fields ∧
      r.status = (lookupField vfields "status").getD (Json.str "UNKNOWN") ∧
      r.explanation = (lookupField vfields "explanation").getD (Json.str "") ∧
      r.correct_info = (lookupField vfields "correct_info").getD Json.null ∧
      r.confidence = (lookupField vfields "confidence").getD (Json.str "MEDIUM") ∧
      sources_list sr = Except.ok r.sources := by
  unfold verify_claim_try at h
  cases c with
  | obj fields =>
    simp only [pyGet_obj, liftOther_ok, bind_ok] at h
    cases hb : build_search_context sr with
    | error e => rw [hb] at h; simp at h
    | ok ctx =>
      rw [hb] at h
      simp only [liftOther_ok, bind_ok] at h
      cases o with
      | exnFailure m => simp at h
      | parseFailure m => simp at h
      | parsed v =>
        simp only [bind_ok] at h
        cases v with
        | obj vfields =>
          simp only [pyGet_obj, liftOther_ok, bind_ok] at h
          cases hs : sources_list sr with
          | error e => rw [hs] at h; simp at h
          | ok us =>
            rw [hs] at h
            simp only [liftOther_ok, bind_ok] at h
            injection h with h
            subst h
            exact ⟨fields, vfields, rfl, rfl, rfl, rfl, rfl, rfl, rfl, rfl, rfl⟩
        | null => simp [pyGet] at h
        | bool b => simp [pyGet] at h
        | num n => simp [pyGet] at h
        | str s => simp [pyGet] at h
        | arr xs => simp [pyGet] at h
  | null => simp [pyGet] at h
  | bool b => simp [pyGet] at h
  | num n => simp [pyGet] at h
  | str s => simp [pyGet] at h
  | arr xs => simp [pyGet] at h

lemma handler_result_ok (fields : List (String × Json)) (s : String) (expl : String)
    (hs : claimTextOf fields = Json.str s) :
    handler_result (Json.obj fields) expl = Except.ok (handler_record fields expl) := by
  unfold handler_result
  have hg : (lookupField fields "claim").getD (Json.str "") = Json.str s := hs
  simp only [pyGet_obj, bind_ok, hg, pySlice]
  simp [handler_record, claimTextOf, claimTypeOf, hg]

lemma handler_result_spec (c : Json) (expl : String) (r : VerificationResult)
    (h : handler_result c expl = Except.ok r) :
    ∃ fields, c = Json.obj fields ∧ r = handler_record fields expl := by
  unfold handler_result at h
  cases c with
  | obj fields =>
    simp only [pyGet_obj, bind_ok] at h
    cases hsl : pySlice ((lookupField fields "claim").getD (Json.str "")) 50 with
    | error e => rw [hsl] at h; simp at h
    | ok w =>
      rw [hsl] at h
      simp only [bind_ok] at h
      injection h with h
      exact ⟨fields, rfl, h.symm⟩
  | null => simp [pyGet] at h
  | bool b => simp [pyGet] at h
  | num n => simp [pyGet] at h
  | str s => simp [pyGet] at h
  | arr xs => simp [pyGet] at h

lemma verify_claim_ok_strong (fields : List (String × Json)) (s : String)
    (sr : SearchResults) (o : OracleOutcome)
    (hs : claimTextOf fields = Json.str s) :
    ∃ r, verify_claim (Json.obj fields) sr o = Except.ok r ∧
      r.claim = claimTextOf fields ∧ r.type = claimTypeOf fields ∧
      (oracleFailed o = true → r.status = Json.str "ERROR" ∧
        r.confidence = Json.str "LOW" ∧ r.sources = [] ∧
        ∃ msg, r.explanation = Json.str ("Error parsing verification response: " ++ msg) ∨
               r.explanation = Json.str ("Error during verification: " ++ msg)) := by
  cases htry : verify_claim_try (Json.obj fields) sr o with
  | ok r =>
    obtain ⟨f2, vf, hobj, ho, hclaim, htype, _, _, _, _, _⟩ :=
      verify_claim_try_ok_spec _ _ _ _ htry
    injection hobj with hf
    subst hf
    refine ⟨r, by simp [verify_claim, htry], hclaim, htype, ?_⟩
    intro hfail
    rw [ho] at hfail
    simp [oracleFailed] at hfail
  | error pe =>
    cases pe with
    | jsonDecode msg =>
      refine ⟨handler_record fields ("Error parsing verification response: " ++ msg),
        ?_, rfl, rfl, ?_⟩
      · simp [verify_claim, htry, handler_result_ok fields s _ hs]
      · exact fun _ => ⟨rfl, rfl, rfl, msg, Or.inl rfl⟩
    | other msg =>
      refine ⟨handler_record fields ("Error during verification: " ++ msg),
        ?_, rfl, rfl, ?_⟩
      · simp [verify_claim, htry, handler_result_ok fields s _ hs]
      · exact fun _ => ⟨rfl, rfl, rfl, msg, Or.inr rfl⟩

lemma sources_comp_spec (l : List Json) (us : List Json)
    (h : sources_comp l = Except.ok us) :
    us.length ≤ l.length ∧ ∀ u ∈ us, jsonTruthy u = true ∧
      ∃ snip ∈ l, pyGet snip "url" (Json.str "") = Except.ok u := by
  induction l generalizing us with
  | nil =>
    unfold sources_comp at h
    injection h with h
    subst h
    exact ⟨Nat.le_refl 0, by intro u hu; cases hu⟩
  | cons r rest ih =>
    unfold sources_comp at h
    cases r with
    | obj rfields =>
      simp only [pyGet_obj, bind_ok] at h
      cases hl : lookupField rfields "url" with
      | none =>
        rw [hl] at h
        simp only [Option.getD, jsonTruthy] at h
        obtain ⟨h1, h2⟩ := ih us h
        exact ⟨Nat.le_succ_of_le h1, fun u hu =>
          ⟨(h2 u hu).1, by
            obtain ⟨snip, hsnip, hget⟩ := (h2 u hu).2
            exact ⟨snip, List.mem_cons_of_mem _ hsnip, hget⟩⟩⟩
      | some w =>
        rw [hl] at h
        simp only [Option.getD] at h
        cases hw : jsonTruthy w with
        | false =>
          rw [hw] at h
          simp only [Bool.false_eq_true, if_false] at h
          obtain ⟨h1, h2⟩ := ih us h
          exact ⟨Nat.le_succ_of_le h1, fun u hu =>
            ⟨(h2 u hu).1, by
              obtain ⟨snip, hsnip, hget⟩ := (h2 u hu).2
              exact ⟨snip, List.mem_cons_of_mem _ hsnip, hget⟩⟩⟩
        | true =>
          rw [hw] at h
          simp only [if_true] at h
          cases hrest : sources_comp rest with
          | error e => rw [hrest] at h; simp at h
          | ok us2 =>
            rw [hrest] at h
            simp only [bind_ok] at h
            injection h with h
            obtain ⟨h1, h2⟩ := ih us2 hrest
            subst h
            refine ⟨Nat.succ_le_succ h1, ?_⟩
            intro u hu
            rcases List.mem_cons.mp hu with hu0 | hu2
            · subst hu0
              refine ⟨?_, Json.obj rfields, List.mem_cons_self _ _, ?_⟩
              · simpa [hl] using hw
              · simp [hl]
            · obtain ⟨snip, hsnip, hget⟩ := (h2 u hu2).2
              exact ⟨(h2 u hu2).1, snip, List.mem_cons_of_mem _ hsnip, hget⟩
    | null => simp [pyGet] at h
    | bool b => simp [pyGet] at h
    | num n => simp [pyGet] at h
    | str s => simp [pyGet] at h
    | arr xs => simp [pyGet] at h

lemma sources_list_spec (sr : SearchResults) (us : List Json)
    (h : sources_list sr = Except.ok us) :
    us.length ≤ 3 ∧ ∀ u ∈ us, jsonTruthy u = true ∧
      ∃ snip ∈ jsonTake3 sr.results, pyGet snip "url" (Json.str "") = Except.ok u := by
  unfold sources_list at h
  cases hres : sr.results with
  | arr xs =>
    rw [hres] at h
    simp only [pySlice, bind_ok] at h
    obtain ⟨h1, h2⟩ := sources_comp_spec (xs.take 3) us h
    refine ⟨Nat.le_trans h1 (by simp [List.length_take]), ?_⟩
    intro u hu
    obtain ⟨snip, hsnip, hget⟩ := (h2 u hu).2
    exact ⟨(h2 u hu).1, snip, by simpa [jsonTake3, hres] using hsnip, hget⟩
  | str s =>
    rw [hres] at h
    simp only [pySlice, bind_ok] at h
    by_cases he : (String.mk (s.toList.take 3)).isEmpty = true
    · rw [if_pos he] at h
      injection h with h
      subst h
      exact ⟨by simp, by intro u hu; cases hu⟩
    · rw [if_neg he] at h
      simp at h
  | null => rw [hres] at h; simp [pySlice] at h
  | bool b => rw [hres] at h; simp [pySlice] at h
  | num n => rw [hres] at h; simp [pySlice] at h
  | obj fs => rw [hres] at h; simp [pySlice] at h

lemma verification_loop_spec (so : Nat → SearchRequest → SearchOutcome)
    (vo : Nat → OracleOutcome) (claims : List Json) (idx : Nat)
    (h : ∀ c ∈ claims, properClaim c = true) :
    ∃ rs, verification_loop so vo idx claims = Except.ok rs ∧
      rs.length = claims.length ∧
      (∀ i (hi : i < claims.length) (hi2 : i < rs.length),
        verify_claim (claims.get ⟨i, hi⟩)
          (search_web_for_claim (dictClaimText (claims.get ⟨i, hi⟩)) (so (idx + i)))
          (vo (idx + i)) = Except.ok (rs.get ⟨i, hi2⟩)) ∧
      (∀ i (hi2 : i < rs.length), oracleFailed (vo (idx + i)) = true →
        (rs.get ⟨i, hi2⟩).status = Json.str "ERROR") := by
  induction claims generalizing idx with
  | nil =>
    refine ⟨[], rfl, rfl, ?_, ?_⟩
    · intro i hi; exact absurd hi (Nat.not_lt_zero i)
    · intro i hi2; exact absurd hi2 (Nat.not_lt_zero i)
  | cons c rest ih =>
    obtain ⟨fields, s, rfl, hs⟩ := properClaim_spec c (h c (List.mem_cons_self c rest))
    obtain ⟨r, hr, hrclaim, hrtype, hrerr⟩ :=
      verify_claim_ok_strong fields s
        (search_web_for_claim (claimTextOf fields) (so idx)) (vo idx) hs
    obtain ⟨rs, hloop, hlen, hcorr, herr⟩ :=
      ih (idx + 1) (fun c2 hc2 => h c2 (List.mem_cons_of_mem _ hc2))
    refine ⟨r :: rs, ?_, by simp [hlen], ?_, ?_⟩
    · unfold verification_loop
      simp only [pyGet_obj, bind_ok]
      rw [show ((lookupField fields "claim").getD (Json.str "")) = claimTextOf fields from rfl,
        hr, hloop]
      rfl
    · intro i hi hi2
      cases i with
      | zero => exact hr
      | succ n =>
        have hn : n < rest.length := Nat.lt_of_succ_lt_succ hi
        have hn2 : n < rs.length := Nat.lt_of_succ_lt_succ hi2
        have hstep := hcorr n hn hn2
        have harith : (idx + 1) + n = idx + (n + 1) := by omega
        rw [harith] at hstep
        exact hstep
    · intro i hi2 hfail
      cases i with
      | zero => exact (hrerr hfail).1
      | succ n =>
        have hn2 : n < rs.length := Nat.lt_of_succ_lt_succ hi2
        have harith : idx + (n + 1) = (idx + 1) + n := by omega
        rw [harith] at hfail
        exact herr n hn2 hfail

lemma is_status_eq_false (s t : String) (r : VerificationResult)
    (h : is_status s r = true) (hne : s ≠ t) : is_status t r = false := by
  unfold is_status at h ⊢
  cases hst : r.status with
  | str u =>
    rw [hst] at h
    have hu : u = s := of_decide_eq_true h
    subst hu
    exact decide_eq_false hne
  | null => rfl
  | bool b => rfl
  | num n => rfl
  | arr xs => rfl
  | obj fs => rfl

lemma count_three (results : List VerificationResult)
    (h : ∀ r ∈ results, is_status "VERIFIED" r = true ∨
      is_status "INACCURATE" r = true ∨ is_status "FALSE" r = true) :
    status_count results "VERIFIED" + status_count results "INACCURATE" +
      status_count results "FALSE" = results.length := by
  induction results with
  | nil => rfl
  | cons r rs ih =>
    have hr := h r (List.mem_cons_self r rs)
    have ihh := ih (fun r2 h2 => h r2 (List.mem_cons_of_mem _ h2))
    simp only [status_count, List.countP_cons, List.length_cons]
    simp only [status_count] at ihh
    rcases hr with hv | hi | hf
    · rw [hv, is_status_eq_false "VERIFIED" "INACCURATE" r hv (by decide),
        is_status_eq_false "VERIFIED" "FALSE" r hv (by decide)]
      simp only [if_true, Bool.false_eq_true, if_false]
      omega
    · rw [hi, is_status_eq_false "INACCURATE" "VERIFIED" r hi (by decide),
        is_status_eq_false "INACCURATE" "FALSE" r hi (by decide)]
      simp only [if_true, Bool.false_eq_true, if_false]
      omega
    · rw [hf, is_status_eq_false "FALSE" "VERIFIED" r hf (by decide),
        is_status_eq_false "FALSE" "INACCURATE" r hf (by decide)]
      simp only [if_true, Bool.false_eq_true, if_false]
      omega

/-! ## Claim theorems -/

/-- C3: for every extraction-oracle response, if it parses as an object
with a `"claims"` list field or as a bare list, `extract_claims` returns
that same sequence of claims; any other parsed shape (including an object
whose `"claims"` field is not a list) yields the empty sequence.  Stated
as: the code's normalisation coincides with the spec-side normalisation
`extract_claims_spec` on every parsed response. -/
theorem claim_C3 (text : String) (oracle : String → OracleOutcome) (result : Json) :
    extract_claims text oracle = extract_claims_result (oracle (text_to_analyze text)) ∧
    extract_claims_result (OracleOutcome.parsed result) = extract_claims_spec result := by
  refine ⟨rfl, ?_⟩
  cases result with
  | obj fields =>
    simp only [extract_claims_result, extract_claims_spec]
    cases hl : lookupField fields "claims" with
    | none => rfl
    | some v => cases v <;> rfl
  | arr xs => rfl
  | null => rfl
  | bool b => rfl
  | num n => rfl
  | str s => rfl

/-- C6: for every text longer than 8000 characters, `extract_claims`
sends only the first 8000 characters to the extraction oracle and issues
a truncation notice; for text of length at most 8000, the full text is
sent and no notice is issued. -/
theorem claim_C6 (text : String) (oracle : String → OracleOutcome) :
    extract_claims text oracle = extract_claims_result (oracle (text_to_analyze text)) ∧
    text_to_analyze text = String.mk (text.toList.take max_text_length) ∧
    (text.length > max_text_length →
      (text_to_analyze text).length = max_text_length ∧ truncation_notice text = true) ∧
    (text.length ≤ max_text_length →
      text_to_analyze text = text ∧ truncation_notice text = false) := by
  refine ⟨rfl, ?_, ?_, ?_⟩
  · unfold text_to_analyze
    split
    · rfl
    · rename_i hnot
      have hle : text.toList.length ≤ max_text_length := Nat.le_of_not_lt hnot
      rw [List.take_of_length_le hle]
      cases text
      rfl
  · intro hgt
    constructor
    · unfold text_to_analyze
      rw [if_pos hgt]
      show (text.toList.take max_text_length).length = max_text_length
      rw [List.length_take]
      exact Nat.min_eq_left (Nat.le_of_lt hgt)
    · unfold truncation_notice
      exact decide_eq_true hgt
  · intro hle
    constructor
    · unfold text_to_analyze
      rw [if_neg (Nat.not_lt.mpr hle)]
    · unfold truncation_notice
      exact decide_eq_false (Nat.not_lt.mpr hle)

/-- Witness for C6 at two concrete inputs: a 8001-character text is
truncated to 8000 with a notice, and a 2-character text passes through
without a notice. -/
theorem claim_C6_witness :
    ((text_to_analyze (String.mk (List.replicate 8001 'a'))).length = max_text_length ∧
      truncation_notice (String.mk (List.replicate 8001 'a')) = true) ∧
    (text_to_analyze "ab" = "ab" ∧ truncation_notice "ab" = false) := by
  constructor
  · refine (claim_C6 (String.mk (List.replicate 8001 'a'))
      (fun _ => OracleOutcome.parsed Json.null)).2.2.1 ?_
    show max_text_length < (List.replicate 8001 'a').length
    rw [List.length_replicate]
    norm_num [max_text_length]
  · refine (claim_C6 "ab" (fun _ => OracleOutcome.parsed Json.null)).2.2.2 ?_
    show "ab".length ≤ max_text_length
    decide

/-- C7: `search_web_for_claim` issues exactly one search request, with
depth `"advanced"` and a result cap of 5 (the embedded search client is a
function of the single request issued, so the output depends only on the
response to that one request), and on a failed call it returns the empty
results list together with the original claim as query instead of
propagating the exception. -/
theorem claim_C7 (claim : Json) (search : SearchRequest → SearchOutcome) :
    (search_request claim).search_depth = "advanced" ∧
    (search_request claim).max_results = 5 ∧
    (search_request claim).query = pyStr claim ∧
    (∀ msg, search (search_request claim) = SearchOutcome.failure msg →
      search_web_for_claim claim search = { results := Json.arr [], query := claim }) ∧
    (∀ search2 : SearchRequest → SearchOutcome,
      search (search_request claim) = search2 (search_request claim) →
      search_web_for_claim claim search = search_web_for_claim claim search2) := by
  refine ⟨rfl, rfl, rfl, ?_, ?_⟩
  · intro msg hm
    unfold search_web_for_claim
    rw [hm]
  · intro s2 heq
    unfold search_web_for_claim
    rw [heq]

/-- Witness for C7 at a concrete claim and a failing search client. -/
theorem claim_C7_witness :
    (search_request (Json.str "q")).search_depth = "advanced" ∧
    (search_request (Json.str "q")).max_results = 5 ∧
    search_web_for_claim (Json.str "q") (fun _ => SearchOutcome.failure "down") =
      { results := Json.arr [], query := Json.str "q" } := by
  have h := claim_C7 (Json.str "q") (fun _ => SearchOutcome.failure "down")
  exact ⟨h.1, h.2.1, h.2.2.2.1 "down" rfl⟩

/-- C8: for every document whose text extraction yields empty text, the
pipeline halts before claim extraction: the resulting stage is
`halted_empty_text`, and the result does not depend on the extraction
oracle (it is never called), so no claims are produced. -/
theorem claim_C8 (pdf_text : String) (oracle oracle2 : String → OracleOutcome)
    (h : pdf_text.isEmpty = true) :
    pipeline_after_text pdf_text oracle = PipelineStage.halted_empty_text ∧
    pipeline_after_text pdf_text oracle = pipeline_after_text pdf_text oracle2 := by
  constructor <;> simp [pipeline_after_text, h]

/-- Witness for C8 at the empty text with two different oracles. -/
theorem claim_C8_witness :
    pipeline_after_text "" (fun _ => OracleOutcome.parsed (Json.arr [Json.obj []])) =
      PipelineStage.halted_empty_text ∧
    pipeline_after_text "" (fun _ => OracleOutcome.parsed (Json.arr [Json.obj []])) =
      pipeline_after_text "" (fun _ => OracleOutcome.exnFailure "down") :=
  claim_C8 "" _ _ rfl

/-- C4: for every claim (a dict whose text field, when present, is a
string, per the data model) whose verification oracle call throws or
whose response fails structured parsing, `verify_claim` returns — rather
than raises — a VerificationResult with status `ERROR`, confidence `LOW`,
empty sources, and an explanation string naming the failure. -/
theorem claim_C4 (c : Json) (sr : SearchResults) (o : OracleOutcome)
    (hp : properClaim c = true) (hf : oracleFailed o = true) :
    ∃ r, verify_claim c sr o = Except.ok r ∧ r.status = Json.str "ERROR" ∧
      r.confidence = Json.str "LOW" ∧ r.sources = [] ∧
      ∃ msg, r.explanation = Json.str ("Error parsing verification response: " ++ msg) ∨
             r.explanation = Json.str ("Error during verification: " ++ msg) := by
  obtain ⟨fields, s, rfl, hs⟩ := properClaim_spec c hp
  obtain ⟨r, hr, _, _, herr⟩ := verify_claim_ok_strong fields s sr o hs
  obtain ⟨h1, h2, h3, msg, hm⟩ := herr hf
  exact ⟨r, hr, h1, h2, h3, msg, hm⟩

/-- Witness for C4 at a concrete claim and an unparsable oracle
response. -/
theorem claim_C4_witness :
    ∃ r, verify_claim (Json.obj [("claim", Json.str "the sky is green")])
        ⟨Json.arr [], Json.str "q"⟩ (OracleOutcome.parseFailure "bad json") =
        Except.ok r ∧
      r.status = Json.str "ERROR" ∧ r.confidence = Json.str "LOW" ∧ r.sources = [] ∧
      ∃ msg, r.explanation = Json.str ("Error parsing verification response: " ++ msg) ∨
             r.explanation = Json.str ("Error during verification: " ++ msg) :=
  claim_C4 (Json.obj [("claim", Json.str "the sky is green")])
    ⟨Json.arr [], Json.str "q"⟩ (OracleOutcome.parseFailure "bad json") rfl rfl

/-- C5: for every claim and evidence-retriever output, whenever
`verify_claim` returns a result, its `sources` field has at most 3 URLs
and every URL in it is truthy and appears as the `"url"` field of one of
the first 3 evidence snippets of that same retriever output (the same
snippets the prompt context draws from), not of any larger pool. -/
theorem claim_C5 (c : Json) (sr : SearchResults) (o : OracleOutcome)
    (r : VerificationResult) (h : verify_claim c sr o = Except.ok r) :
    r.sources.length ≤ 3 ∧ ∀ u ∈ r.sources, jsonTruthy u = true ∧
      ∃ snip ∈ jsonTake3 sr.results, pyGet snip "url" (Json.str "") = Except.ok u := by
  unfold verify_claim at h
  cases htry : verify_claim_try c sr o with
  | ok r2 =>
    rw [htry] at h
    injection h with h
    subst h
    obtain ⟨_, _, _, _, _, _, _, _, _, _, hsrc⟩ :=
      verify_claim_try_ok_spec c sr o r2 htry
    exact sources_list_spec sr r2.sources hsrc
  | error pe =>
    rw [htry] at h
    cases pe with
    | jsonDecode msg =>
      obtain ⟨fields, _, hrec⟩ := handler_result_spec c _ r h
      subst hrec
      exact ⟨by simp [handler_record], by intro u hu; cases hu⟩
    | other msg =>
      obtain ⟨fields, _, hrec⟩ := handler_result_spec c _ r h
      subst hrec
      exact ⟨by simp [handler_record], by intro u hu; cases hu⟩

/-- Witness for C5 at a concrete claim, one evidence snippet with a URL,
and a parsed verdict. -/
theorem claim_C5_witness :
    ([Json.str "u1"] : List Json).length ≤ 3 ∧
    ∀ u ∈ ([Json.str "u1"] : List Json), jsonTruthy u = true ∧
      ∃ snip ∈ jsonTake3 (Json.arr [Json.obj [("url", Json.str "u1")]]),
        pyGet snip "url" (Json.str "") = Except.ok u :=
  claim_C5 (Json.obj []) ⟨Json.arr [Json.obj [("url", Json.str "u1")]], Json.str "q"⟩
    (OracleOutcome.parsed (Json.obj []))
    ⟨Json.str "", Json.str "other", Json.str "UNKNOWN", Json.str "", Json.null,
      Json.str "MEDIUM", [Json.str "u1"]⟩ rfl

/-- C9: for every verification-oracle response that parses successfully
(and for which the success path completes), the result defaults its
status to `UNKNOWN` when the parsed verdict omits the `status` field and
its confidence to `MEDIUM` when the verdict omits the `confidence`
field. -/
theorem claim_C9 (c : Json) (sr : SearchResults) (v : Json) (r : VerificationResult)
    (h : verify_claim_try c sr (OracleOutcome.parsed v) = Except.ok r) :
    verify_claim c sr (OracleOutcome.parsed v) = Except.ok r ∧
    ∀ vfields, v = Json.obj vfields →
      (lookupField vfields "status" = none → r.status = Json.str "UNKNOWN") ∧
      (lookupField vfields "confidence" = none → r.confidence = Json.str "MEDIUM") := by
  refine ⟨by simp [verify_claim, h], ?_⟩
  intro vfields hv
  subst hv
  obtain ⟨f, vf, _, ho, _, _, hst, _, _, hconf, _⟩ :=
    verify_claim_try_ok_spec c sr _ r h
  injection ho with ho2
  injection ho2 with ho3
  constructor
  · intro hnone
    rw [hst, ← ho3, hnone]
    rfl
  · intro hnone
    rw [hconf, ← ho3, hnone]
    rfl

/-- Witness for C9 at a concrete claim and a parsed verdict that omits
both the status and the confidence fields. -/
theorem claim_C9_witness :
    verify_claim (Json.obj []) ⟨Json.arr [], Json.str "q"⟩
      (OracleOutcome.parsed (Json.obj [])) =
      Except.ok ⟨Json.str "", Json.str "other", Json.str "UNKNOWN", Json.str "",
        Json.null, Json.str "MEDIUM", []⟩ ∧
    (⟨Json.str "", Json.str "other", Json.str "UNKNOWN", Json.str "", Json.null,
      Json.str "MEDIUM", ([] : List Json)⟩ : VerificationResult).status =
      Json.str "UNKNOWN" ∧
    (⟨Json.str "", Json.str "other", Json.str "UNKNOWN", Json.str "", Json.null,
      Json.str "MEDIUM", ([] : List Json)⟩ : VerificationResult).confidence =
      Json.str "MEDIUM" := by
  have h := claim_C9 (Json.obj []) ⟨Json.arr [], Json.str "q"⟩ (Json.obj [])
    ⟨Json.str "", Json.str "other", Json.str "UNKNOWN", Json.str "", Json.null,
      Json.str "MEDIUM", []⟩ rfl
  exact ⟨h.1, (h.2 [] rfl).1 rfl, (h.2 [] rfl).2 rfl⟩

/-- C10: for every dict-shaped input claim, `verify_claim`'s result — on
the success path and on both error paths alike — carries the input
claim's text and kind unchanged in its `claim` and `type` fields,
defaulting to `""` and `"other"` when the input dict lacks those keys. -/
theorem claim_C10 (c : Json) (fields : List (String × Json)) (sr : SearchResults)
    (o : OracleOutcome) (r : VerificationResult) (hc : c = Json.obj fields)
    (h : verify_claim c sr o = Except.ok r) :
    r.claim = claimTextOf fields ∧ r.type = claimTypeOf fields ∧
    (lookupField fields "claim" = none → r.claim = Json.str "") ∧
    (lookupField fields "type" = none → r.type = Json.str "other") := by
  subst hc
  have hmain : r.claim = claimTextOf fields ∧ r.type = claimTypeOf fields := by
    unfold verify_claim at h
    cases htry : verify_claim_try (Json.obj fields) sr o with
    | ok r2 =>
      rw [htry] at h
      injection h with h
      subst h
      obtain ⟨f, vf, hobj, _, hclaim, htype, _⟩ :=
        verify_claim_try_ok_spec _ sr o r2 htry
      injection hobj with hf
      subst hf
      exact ⟨hclaim, htype⟩
    | error pe =>
      rw [htry] at h
      cases pe with
      | jsonDecode msg =>
        obtain ⟨f, hobj, hrec⟩ := handler_result_spec _ _ r h
        injection hobj with hf
        subst hf
        subst hrec
        exact ⟨rfl, rfl⟩
      | other msg =>
        obtain ⟨f, hobj, hrec⟩ := handler_result_spec _ _ r h
        injection hobj with hf
        subst hf
        subst hrec
        exact ⟨rfl, rfl⟩
  refine ⟨hmain.1, hmain.2, ?_, ?_⟩
  · intro hnone
    rw [hmain.1]
    simp [claimTextOf, hnone]
  · intro hnone
    rw [hmain.2]
    simp [claimTypeOf, hnone]

/-- Witness for C10 at a concrete claim carrying a text but no kind,
under a failing oracle call. -/
theorem claim_C10_witness :
    (handler_record [("claim", Json.str "x")] ("Error during verification: " ++ "net")).claim =
      claimTextOf [("claim", Json.str "x")] ∧
    (handler_record [("claim", Json.str "x")] ("Error during verification: " ++ "net")).type =
      claimTypeOf [("claim", Json.str "x")] ∧
    (lookupField [("claim", Json.str "x")] "claim" = none →
      (handler_record [("claim", Json.str "x")] ("Error during verification: " ++ "net")).claim =
        Json.str "") ∧
    (lookupField [("claim", Json.str "x")] "type" = none →
      (handler_record [("claim", Json.str "x")] ("Error during verification: " ++ "net")).type =
        Json.str "other") :=
  claim_C10 (Json.obj [("claim", Json.str "x")]) [("claim", Json.str "x")]
    ⟨Json.arr [], Json.str "q"⟩ (OracleOutcome.exnFailure "net")
    (handler_record [("claim", Json.str "x")] ("Error during verification: " ++ "net"))
    rfl rfl

/-- C2: for every list of Claims (dict-shaped, with string text as the
data model requires) fed into the Orchestrator's verification loop, the
loop succeeds and yields exactly one VerificationResult per input Claim,
in the same order (the i-th result is `verify_claim` applied to the i-th
claim with that claim's search results); and whenever the verification
oracle call for a claim fails or returns unparsable output, that claim's
result has status `ERROR` — it is never silently dropped. -/
theorem claim_C2 (claims : List Json) (so : Nat → SearchRequest → SearchOutcome)
    (vo : Nat → OracleOutcome) (h : ∀ c ∈ claims, properClaim c = true) :
    ∃ rs, verification_loop so vo 0 claims = Except.ok rs ∧
      rs.length = claims.length ∧
      (∀ i (hi : i < claims.length) (hi2 : i < rs.length),
        verify_claim (claims.get ⟨i, hi⟩)
          (search_web_for_claim (dictClaimText (claims.get ⟨i, hi⟩)) (so i)) (vo i) =
          Except.ok (rs.get ⟨i, hi2⟩)) ∧
      (∀ i (hi2 : i < rs.length), oracleFailed (vo i) = true →
        (rs.get ⟨i, hi2⟩).status = Json.str "ERROR") := by
  obtain ⟨rs, h1, h2, h3, h4⟩ := verification_loop_spec so vo claims 0 h
  refine ⟨rs, h1, h2, ?_, ?_⟩
  · intro i hi hi2
    have hh := h3 i hi hi2
    rw [Nat.zero_add] at hh
    exact hh
  · intro i hi2 hfail
    have hh := h4 i hi2
    rw [Nat.zero_add] at hh
    exact hh hfail

/-- Witness for C2 at a one-claim list whose search call fails and whose
verification response is unparsable. -/
theorem claim_C2_witness :
    ∃ rs, verification_loop (fun _ _ => SearchOutcome.failure "down")
        (fun _ => OracleOutcome.parseFailure "bad") 0 [Json.obj []] = Except.ok rs ∧
      rs.length = ([Json.obj []] : List Json).length ∧
      (∀ i (hi : i < ([Json.obj []] : List Json).length) (hi2 : i < rs.length),
        verify_claim (([Json.obj []] : List Json).get ⟨i, hi⟩)
          (search_web_for_claim (dictClaimText (([Json.obj []] : List Json).get ⟨i, hi⟩))
            ((fun _ _ => SearchOutcome.failure "down") i))
          ((fun _ => OracleOutcome.parseFailure "bad") i) = Except.ok (rs.get ⟨i, hi2⟩)) ∧
      (∀ i (hi2 : i < rs.length),
        oracleFailed ((fun _ => OracleOutcome.parseFailure "bad") i) = true →
        (rs.get ⟨i, hi2⟩).status = Json.str "ERROR") := by
  refine claim_C2 [Json.obj []] (fun _ _ => SearchOutcome.failure "down")
    (fun _ => OracleOutcome.parseFailure "bad") ?_
  intro c hc
  rw [List.mem_singleton] at hc
  subst hc
  rfl

/-- C1 counterexample: the claim states that the summary's percentages
sum (allowing rounding) to 100% for every nonempty results collection,
but the summary computes percentages only for the VERIFIED, INACCURATE
and FALSE rows (app.py lines 341-352); for a single ERROR result they sum
to 0%, not 100%. -/
theorem claim_C1_counterexample :
    0 < ([sampleError] : List VerificationResult).length ∧
    verified_pct [sampleError] + inaccurate_pct [sampleError] +
      false_pct [sampleError] ≠ 100 := by
  constructor
  · simp
  · have hv : status_count [sampleError] "VERIFIED" = 0 := rfl
    have hi : status_count [sampleError] "INACCURATE" = 0 := rfl
    have hf : status_count [sampleError] "FALSE" = 0 := rfl
    rw [verified_pct, inaccurate_pct, false_pct, hv, hi, hf]
    norm_num

/-- C1 (amended): for every nonempty results collection, the summary's
denominator is nonzero (no division by zero), the three displayed
percentages sum exactly to `100 · (countVERIFIED + countINACCURATE +
countFALSE) / N`, and they sum to 100% whenever every result carries one
of the three displayed statuses. -/
theorem claim_C1_amended (results : List VerificationResult) (h : results ≠ []) :
    (results.length : ℚ) ≠ 0 ∧
    verified_pct results + inaccurate_pct results + false_pct results =
      ((status_count results "VERIFIED" : ℚ) + (status_count results "INACCURATE" : ℚ) +
        (status_count results "FALSE" : ℚ)) / (results.length : ℚ) * 100 ∧
    ((∀ r ∈ results, is_status "VERIFIED" r = true ∨ is_status "INACCURATE" r = true ∨
        is_status "FALSE" r = true) →
      verified_pct results + inaccurate_pct results + false_pct results = 100) := by
  have hlen : results.length ≠ 0 := fun hh => h (List.eq_nil_of_length_eq_zero hh)
  have hQ : (results.length : ℚ) ≠ 0 := Nat.cast_ne_zero.mpr hlen
  refine ⟨hQ, ?_, ?_⟩
  · rw [verified_pct, inaccurate_pct, false_pct]
    field_simp
    ring
  · intro hall
    have hcount := count_three results hall
    have hsum : (status_count results "VERIFIED" : ℚ) +
        (status_count results "INACCURATE" : ℚ) + (status_count results "FALSE" : ℚ) =
        (results.length : ℚ) := by
      exact_mod_cast congrArg (fun n : ℕ => (n : ℚ)) hcount
    rw [verified_pct, inaccurate_pct, false_pct]
    field_simp
    linear_combination 100 * hsum

/-- Witness for C1 (amended) at a singleton VERIFIED collection, whose
three percentages sum to 100%. -/
theorem claim_C1_amended_witness :
    (([sampleVerified] : List VerificationResult).length : ℚ) ≠ 0 ∧
    verified_pct [sampleVerified] + inaccurate_pct [sampleVerified] +
      false_pct [sampleVerified] =
      ((status_count [sampleVerified] "VERIFIED" : ℚ) +
        (status_count [sampleVerified] "INACCURATE" : ℚ) +
        (status_count [sampleVerified] "FALSE" : ℚ)) /
        (([sampleVerified] : List VerificationResult).length : ℚ) * 100 ∧
    verified_pct [sampleVerified] + inaccurate_pct [sampleVerified] +
      false_pct [sampleVerified] = 100 := by
  have h := claim_C1_amended [sampleVerified] (by simp)
  refine ⟨h.1, h.2.1, h.2.2 ?_⟩
  intro r hr
  rw [List.mem_singleton] at hr
  subst hr
  left
  rfl

end FactCheck
